import Mathlib

/-!
Verification development for the Puñuy Apu sleep-detection core
(src/app/src/main/cpp).  The C++ code is shallowly embedded:

* timestamps are Int milliseconds since the Unix epoch
  (std::chrono::system_clock::time_point at millisecond granularity);
* durations are Int milliseconds;
* C++ double is modelled by ℚ (the scoring arithmetic of the source uses
  only +, -, *, /, min, max, abs and comparisons on small constants);
* std::optional is Option, std::vector is List;
* the localtime-based helpers (getMinutesSinceMidnight, tm_wday) are
  modelled with the timezone fixed to UTC: minutes since midnight is
  (t / 60000) mod 1440 and the day of week of the epoch (1970-01-01) is
  Thursday = 4, exactly the arithmetic the source performs on struct tm
  fields for a zero-offset timezone.

Field and function names follow src/app/src/main/cpp/include/puuyapu_types.h,
core/sleep_detector.cpp, core/interaction_analyzer.cpp and
core/pattern_matcher.cpp.
-/

/-- Truncation of a rational toward zero, the semantics of the C++
static_cast from double to int used by the source. -/
def truncQ (q : ℚ) : Int := if q < 0 then -⌊-q⌋ else ⌊q⌋

/-- InteractionType from puuyapu_types.h (values 0..5). -/
inductive InteractionType where
  | unknown
  | timeCheck
  | meaningfulUse
  | notificationResponse
  | extendedUse
  | sleepConfirmation
deriving DecidableEq

/-- AppCategory from puuyapu_types.h. -/
inductive AppCategory where
  | unknown
  | socialMedia
  | messaging
  | entertainment
  | productivity
  | clockAlarm
  | system
deriving DecidableEq

/-- SleepConfidence from puuyapu_types.h: VERY_LOW=0 .. VERY_HIGH=4. -/
inductive SleepConfidence where
  | veryLow
  | low
  | medium
  | high
  | veryHigh
deriving DecidableEq

/-- Numeric value of a SleepConfidence level (the uint8_t enum value). -/
def SleepConfidence.toNat : SleepConfidence → Nat
  | .veryLow => 0
  | .low => 1
  | .medium => 2
  | .high => 3
  | .veryHigh => 4

/-- SleepConfidence from its numeric value (static_cast in the source;
values are always clamped to at most 4 before the cast). -/
def SleepConfidence.fromNat : Nat → SleepConfidence
  | 0 => .veryLow
  | 1 => .low
  | 2 => .medium
  | 3 => .high
  | _ + 4 => .veryHigh

/-- InteractionEvent from puuyapu_types.h.  timestamp and duration are in
milliseconds; app_hash, session_id and user_interaction_count are carried
but never read by any algorithm of the core. -/
structure InteractionEvent where
  timestamp : Int
  duration : Int
  type : InteractionType
  category : AppCategory
  app_hash : Nat
  session_id : Nat
  user_interaction_count : Nat
deriving DecidableEq

/-- The convenience constructor of InteractionEvent (zeroes the id fields). -/
def InteractionEvent.make (ts dur : Int) (t : InteractionType)
    (cat : AppCategory) : InteractionEvent :=
  ⟨ts, dur, t, cat, 0, 0, 0⟩

/-- InteractionEvent::isTimeCheck from puuyapu_types.h lines 121-125. -/
def InteractionEvent.isTimeCheck (e : InteractionEvent) : Bool :=
  e.type == .timeCheck ||
  (e.category == .clockAlarm && decide (e.duration < 30000)) ||
  decide (e.duration < 15000)

/-- InteractionEvent::isMeaningfulUse from puuyapu_types.h lines 132-137. -/
def InteractionEvent.isMeaningfulUse (e : InteractionEvent) : Bool :=
  e.type == .meaningfulUse ||
  e.type == .extendedUse ||
  e.type == .notificationResponse ||
  decide (30000 ≤ e.duration)

/-- SleepInterruption from puuyapu_types.h. -/
structure SleepInterruption where
  timestamp : Int
  duration : Int
  cause : InteractionType
  app_category : AppCategory
  is_brief_check : Bool
  impact_score : ℚ
deriving DecidableEq

/-- The SleepInterruption constructor from puuyapu_types.h lines 166-181:
is_brief_check is duration < 30 s; impact_score is 0.1 for brief checks and
otherwise min(1, duration_ms / 600000) (linear, max impact at 10 minutes). -/
def SleepInterruption.make (ts dur : Int) (c : InteractionType)
    (cat : AppCategory) : SleepInterruption :=
  if dur < 30000 then
    ⟨ts, dur, c, cat, true, 1/10⟩
  else
    ⟨ts, dur, c, cat, false, min 1 ((dur : ℚ) / 600000)⟩

/-- SleepDetectionResult from puuyapu_types.h.  duration_hours is the
duration field (a double counting hours). -/
structure SleepDetectionResult where
  bedtime : Option Int
  wake_time : Option Int
  duration_hours : ℚ
  confidence : SleepConfidence
  interruptions : List SleepInterruption
  quality_score : ℚ
  is_manually_confirmed : Bool
  pattern_match_score : ℚ
deriving DecidableEq

/-- The default-constructed SleepDetectionResult of the source (no times,
zero duration, confidence LOW, no interruptions, zero scores). -/
def emptyResult : SleepDetectionResult :=
  ⟨none, none, 0, .low, [], 0, false, 0⟩

/-- SleepDetectionResult::isValid from puuyapu_types.h lines 205-210:
both endpoints present and duration between 1 and 24 hours. -/
def SleepDetectionResult.isValid (r : SleepDetectionResult) : Prop :=
  r.bedtime.isSome = true ∧ r.wake_time.isSome = true ∧
  1 ≤ r.duration_hours ∧ r.duration_hours ≤ 24

instance (r : SleepDetectionResult) : Decidable r.isValid := by
  unfold SleepDetectionResult.isValid
  infer_instance

/-- UserPreferences from puuyapu_types.h.  target_sleep_hours is a double
counting hours; bedtime fields are minutes since midnight;
minimum_interaction_gap and time_check_threshold are in seconds. -/
structure UserPreferences where
  target_sleep_hours : ℚ
  target_bedtime : Int
  target_wake_time : Int
  weekday_bedtime : Int
  weekend_bedtime : Int
  minimum_interaction_gap : Int
  time_check_threshold : Int
  enable_smart_detection : Bool
  track_interruptions : Bool
  confidence_threshold : ℚ
deriving DecidableEq

/-- The default-constructed UserPreferences of the source (8 h target,
bedtime 23:30, wake 07:30, weekend bedtime 24:00, 4 h minimum gap,
30 s time-check threshold, confidence threshold 0.7). -/
def defaultPreferences : UserPreferences :=
  ⟨8, 1410, 450, 1410, 1440, 14400, 30, true, true, 7/10⟩

/-- UserPreferences::isValid from puuyapu_types.h lines 281-287. -/
def UserPreferences.isValid (p : UserPreferences) : Prop :=
  1 ≤ p.target_sleep_hours ∧ p.target_sleep_hours ≤ 12 ∧
  1/10 ≤ p.confidence_threshold ∧ p.confidence_threshold ≤ 1 ∧
  3600 ≤ p.minimum_interaction_gap

instance (p : UserPreferences) : Decidable p.isValid := by
  unfold UserPreferences.isValid
  infer_instance

/-- UserPreferences::getBedtimeForDay (0 = Sunday, 6 = Saturday). -/
def UserPreferences.getBedtimeForDay (p : UserPreferences) (day_of_week : Int) : Int :=
  if day_of_week = 0 ∨ day_of_week = 6 then p.weekend_bedtime else p.weekday_bedtime

/-- TimeGap from puuyapu_types.h. -/
structure TimeGap where
  start_time : Int
  end_time : Int
  duration : Int
  contains_brief_interactions : Bool
  brief_interaction_count : Nat
deriving DecidableEq

/-- TimeGap::isLikelySleep from puuyapu_types.h lines 351-354: duration at
least the minimum (inclusive) and fewer than 5 brief interactions. -/
def TimeGap.isLikelySleep (g : TimeGap) (min_duration : Int) : Bool :=
  decide (min_duration ≤ g.duration) && decide (g.brief_interaction_count < 5)

/-- getMinutesSinceMidnight from time_utils.cpp (UTC model, see header). -/
def getMinutesSinceMidnight (t : Int) : Int :=
  (t.fdiv 60000).emod 1440

/-- isWithinDailyTimeRange from time_utils.cpp: plain range when
start ≤ end, overnight (wrapping) range otherwise. -/
def isWithinDailyTimeRange (t range_start range_end : Int) : Bool :=
  let minutes := getMinutesSinceMidnight t
  if range_start ≤ range_end then
    decide (range_start ≤ minutes) && decide (minutes ≤ range_end)
  else
    decide (range_start ≤ minutes) || decide (minutes ≤ range_end)

/-- isNighttime from time_utils.cpp: between 22:00 and 06:00. -/
def isNighttime (t : Int) : Bool :=
  isWithinDailyTimeRange t (22 * 60) (6 * 60)

/-- Day of week of a timestamp, 0 = Sunday (tm_wday of localtime in the
UTC model; the epoch day 1970-01-01 was a Thursday = 4). -/
def dayOfWeek (t : Int) : Int :=
  (t.fdiv 86400000 + 4).emod 7

/-- calculateDurationHours from sleep_detector.h: millisecond difference
expressed in hours as a double. -/
def calculateDurationHours (start_t end_t : Int) : ℚ :=
  ((end_t - start_t : Int) : ℚ) / 3600000

/-- Gap-scan loop body of SleepDetector::detectInteractionGaps
(sleep_detector.cpp lines 510-532).  prev is the current
previous-meaningful cursor, between holds the events seen since prev,
rest is the unscanned tail and acc the emitted gaps (reversed). -/
def detectGapsAux (min_gap_duration : Int) (prev : InteractionEvent)
    (between : List InteractionEvent) (rest : List InteractionEvent)
    (acc : List TimeGap) : List TimeGap :=
  match rest with
  | [] => acc.reverse
  | e :: rest1 =>
    if e.isMeaningfulUse then
      let acc1 :=
        if min_gap_duration ≤ e.timestamp - prev.timestamp then
          let cnt := (between.filter (fun b => b.isTimeCheck)).length
          { start_time := prev.timestamp
            end_time := e.timestamp
            duration := e.timestamp - prev.timestamp
            contains_brief_interactions := decide (0 < cnt)
            brief_interaction_count := cnt } :: acc
        else acc
      detectGapsAux min_gap_duration e [] rest1 acc1
    else
      detectGapsAux min_gap_duration prev (between ++ [e]) rest1 acc

/-- SleepDetector::detectInteractionGaps (sleep_detector.cpp lines 500-535):
gaps of at least min_gap_duration between consecutive meaningful
interactions of a sorted event list, with the count of TimeCheck events
strictly inside each gap; the cursor starts at the first event. -/
def detectInteractionGaps (events : List InteractionEvent)
    (min_gap_duration : Int) : List TimeGap :=
  if events.length < 2 then []
  else
    match events with
    | [] => []
    | e0 :: rest => detectGapsAux min_gap_duration e0 [] rest []

/-- SleepDetector::findSleepStartTime (sleep_detector.cpp lines 353-388):
most recent qualifying gap, else the last meaningful event if it is at
least minimum_interaction_gap before current_time.  The preference gap is
stored in seconds and cast to milliseconds at the call site. -/
def findSleepStartTime (prefs : UserPreferences)
    (events : List InteractionEvent) (current_time : Int) : Option Int :=
  if events.isEmpty then none
  else
    let min_gap_ms := prefs.minimum_interaction_gap * 1000
    let gaps := detectInteractionGaps events min_gap_ms
    match gaps.reverse.find? (fun g => g.isLikelySleep min_gap_ms) with
    | some g => some g.start_time
    | none =>
      match events.reverse.find? (fun e => e.isMeaningfulUse) with
      | some last_meaningful =>
        if min_gap_ms ≤ current_time - last_meaningful.timestamp then
          some last_meaningful.timestamp
        else none
      | none => none

/-- SleepDetector::findSleepEndTime (sleep_detector.cpp lines 390-408):
first meaningful interaction strictly after sleep_start. -/
def findSleepEndTime (events : List InteractionEvent)
    (sleep_start : Int) : Option Int :=
  (events.find? (fun e =>
    decide (sleep_start < e.timestamp) && e.isMeaningfulUse)).map
    (fun e => e.timestamp)

/-- SleepDetector::analyzeInterruptions (sleep_detector.cpp lines 410-434):
events strictly inside the sleep window that are time checks or shorter
than 120 s, each turned into a SleepInterruption. -/
def analyzeInterruptions (events : List InteractionEvent)
    (sleep_start sleep_end : Int) : List SleepInterruption :=
  (events.filter (fun e =>
      decide (sleep_start < e.timestamp) && decide (e.timestamp < sleep_end) &&
      (e.isTimeCheck || decide (e.duration < 120000)))).map
    (fun e => SleepInterruption.make e.timestamp e.duration e.type e.category)

/-- SleepDetector::calculateSleepQuality (sleep_detector.cpp lines 537-559):
start at 1, subtract impact_score * 0.1 per interruption, subtract an
extra 0.05 per interruption beyond the third, clamp to [0, 1]; zero for a
non-positive total duration. -/
def calculateSleepQuality (interruptions : List SleepInterruption)
    (total_sleep_duration : Int) : ℚ :=
  if total_sleep_duration ≤ 0 then 0
  else
    let quality := interruptions.foldl
      (fun q i => q - i.impact_score * (1/10)) 1
    let quality :=
      if 3 < interruptions.length then
        quality - ((interruptions.length - 3 : Nat) : ℚ) * (1/20)
      else quality
    max 0 (min 1 quality)

/-- SleepDetector::calculateConfidenceScore (sleep_detector.cpp lines
153-189): 0 for an invalid session, else manual 0.5 + duration
reasonableness * 0.2 + pattern score * 0.15 + quality * 0.1 + nighttime
bonus 0.05, capped at 1. -/
def calculateConfidenceScore (prefs : UserPreferences)
    (session : SleepDetectionResult) : ℚ :=
  if session.isValid then
    let score0 : ℚ := 0
    let score1 := if session.is_manually_confirmed then score0 + 1/2 else score0
    let target_hours := prefs.target_sleep_hours
    let duration_diff := |session.duration_hours - target_hours|
    let duration_score := max 0 (1 - duration_diff / target_hours)
    let score2 := score1 + duration_score * (2/10)
    let score3 := score2 + session.pattern_match_score * (15/100)
    let score4 := score3 + session.quality_score * (1/10)
    let score5 :=
      match session.bedtime with
      | some bt => if isNighttime bt then score4 + 1/20 else score4
      | none => score4
    min 1 score5
  else 0

/-- The confidence-level assignment of SleepDetector::detectSleepPeriod
(sleep_detector.cpp lines 123-125): static_cast to the enum of
min(4, static_cast to int of score * 5). -/
def toConfidenceLevel (score : ℚ) : SleepConfidence :=
  SleepConfidence.fromNat (min 4 (truncQ (score * 5))).toNat

/-- SleepDetector::evaluatePatternConsistency (sleep_detector.cpp lines
447-473): mean of a bedtime-deviation score (3 h tolerance against the
per-day preferred bedtime) and a duration-deviation score (relative to the
target duration). -/
def evaluatePatternConsistency (prefs : UserPreferences)
    (sleep_start sleep_end : Int) : ℚ :=
  let expected_bedtime := prefs.getBedtimeForDay (dayOfWeek sleep_start)
  let actual_bedtime := getMinutesSinceMidnight sleep_start
  let bedtime_diff := |actual_bedtime - expected_bedtime|
  let bedtime_score := max 0 (1 - (bedtime_diff : ℚ) / 180)
  let actual_duration := calculateDurationHours sleep_start sleep_end
  let target_duration := prefs.target_sleep_hours
  let duration_diff := |actual_duration - target_duration|
  let duration_score := max 0 (1 - duration_diff / target_duration)
  (bedtime_score + duration_score) / 2

/-- Performance::MAX_EVENTS_CACHE from puuyapu_types.h. -/
def MAX_EVENTS_CACHE : Nat := 10000

/-- CACHE_VALIDITY_DURATION from sleep_detector.h (5 minutes), in ms. -/
def CACHE_VALIDITY_MS : Int := 300000

/-- The state of a SleepDetector (sleep_detector.h lines 49-72): the event
buffer with its circular-buffer bookkeeping, the active preferences, the
cached result with its timestamp, and the statistics counters.  The
performance-metrics map only feeds logging and is not modelled. -/
structure SleepDetector where
  recent_events : List InteractionEvent
  event_write_index : Nat
  event_buffer_full : Bool
  preferences : UserPreferences
  cached_result : Option SleepDetectionResult
  last_cache_update : Int
  total_events_processed : Nat
  total_sleep_periods_detected : Nat
deriving DecidableEq

/-- SleepDetector::addInteractionEvent (sleep_detector.cpp lines 49-71):
append while below capacity, else overwrite at the write index and advance
it; always bump the counter and drop the cached result. -/
def SleepDetector.addInteractionEvent (s : SleepDetector)
    (e : InteractionEvent) : SleepDetector :=
  if s.recent_events.length < MAX_EVENTS_CACHE then
    { s with recent_events := s.recent_events ++ [e]
             total_events_processed := s.total_events_processed + 1
             cached_result := none }
  else
    { s with recent_events := s.recent_events.set s.event_write_index e
             event_write_index := (s.event_write_index + 1) % MAX_EVENTS_CACHE
             event_buffer_full := true
             total_events_processed := s.total_events_processed + 1
             cached_result := none }

/-- SleepDetector::updateUserPreferences (sleep_detector.cpp lines
191-208): ignore an invalid update entirely, else install the new
preferences and drop the cached result. -/
def SleepDetector.updateUserPreferences (s : SleepDetector)
    (new_preferences : UserPreferences) : SleepDetector :=
  if new_preferences.isValid then
    { s with preferences := new_preferences
             cached_result := none }
  else s

/-- SleepDetector::canUseCachedResult (sleep_detector.cpp lines 436-445):
a cached result exists and is younger than the validity window. -/
def SleepDetector.canUseCachedResult (s : SleepDetector) (current_time : Int) : Bool :=
  s.cached_result.isSome &&
  decide (current_time - s.last_cache_update < CACHE_VALIDITY_MS)

/-- SleepDetector::getSortedEvents (sleep_detector.cpp lines 491-498):
a copy of the buffer sorted by timestamp. -/
def SleepDetector.getSortedEvents (s : SleepDetector) : List InteractionEvent :=
  s.recent_events.insertionSort (fun a b => a.timestamp ≤ b.timestamp)

/-- Steps 1-8 of SleepDetector::detectSleepPeriod (sleep_detector.cpp
lines 91-137) on an already sorted event list: sleep start, sleep end
(absent means the user may still be asleep, so only bedtime is reported),
interruptions, duration, quality, confidence level (computed on the
record BEFORE pattern_match_score and is_manually_confirmed are assigned,
exactly as in the source where those fields still hold their defaults at
line 123), pattern score, and the manual-confirmation override (a
SleepConfirmation event within 30 minutes of the bedtime). -/
def detectCompute (prefs : UserPreferences)
    (events : List InteractionEvent) (current_time : Int) : SleepDetectionResult :=
  match findSleepStartTime prefs events current_time with
  | none => emptyResult
  | some sleep_start =>
    match findSleepEndTime events sleep_start with
    | none => { emptyResult with bedtime := some sleep_start }
    | some sleep_end =>
      let interruptions := analyzeInterruptions events sleep_start sleep_end
      let quality := calculateSleepQuality interruptions (sleep_end - sleep_start)
      let r0 : SleepDetectionResult :=
        { bedtime := some sleep_start
          wake_time := some sleep_end
          duration_hours := calculateDurationHours sleep_start sleep_end
          confidence := .low
          interruptions := interruptions
          quality_score := quality
          is_manually_confirmed := false
          pattern_match_score := 0 }
      let r1 :=
        { r0 with
          confidence := toConfidenceLevel (calculateConfidenceScore prefs r0)
          pattern_match_score := evaluatePatternConsistency prefs sleep_start sleep_end }
      if events.any (fun e =>
          e.type == .sleepConfirmation &&
          decide (sleep_start - 1800000 ≤ e.timestamp) &&
          decide (e.timestamp ≤ sleep_start + 1800000)) then
        { r1 with is_manually_confirmed := true, confidence := .veryHigh }
      else r1

/-- The uncached path of SleepDetector::detectSleepPeriod: fewer than two
events yield the empty result, otherwise the full computation runs. -/
def SleepDetector.detectRaw (s : SleepDetector) (current_time : Int) : SleepDetectionResult :=
  let events := s.getSortedEvents
  if events.length < 2 then emptyResult
  else detectCompute s.preferences events current_time

/-- SleepDetector::detectSleepPeriod (sleep_detector.cpp lines 73-151) as
a state transformer: serve a young cached result unchanged, else compute;
a valid computed result is cached with current_time and counted.  In the
source the early returns (too few events, no sleep start, no sleep end)
skip the final isValid-guarded caching block; every early-returned record
lacks a wake time and is therefore invalid, so guarding the single final
cache step with isValid is the same behaviour. -/
def SleepDetector.detectSleepPeriod (s : SleepDetector)
    (current_time : Int) : SleepDetectionResult × SleepDetector :=
  if s.canUseCachedResult current_time then
    (s.cached_result.getD emptyResult, s)
  else
    let result := s.detectRaw current_time
    if result.isValid then
      (result,
       { s with cached_result := some result
                last_cache_update := current_time
                total_sleep_periods_detected := s.total_sleep_periods_detected + 1 })
    else (result, s)

/-- InteractionAnalyzer::classifyInteraction from
core/interaction_analyzer.cpp lines 15-61 (the compiled analyzer
translation unit): sticky non-Unknown types; under 10 s a time check;
10-30 s a continuation of a meaningful session when the last context
event is MEANINGFUL_USE less than 2 minutes earlier, else a time check
(the CLOCK_ALARM branch of the source also returns TIME_CHECK); 30 s to
5 min meaningful use; 5 min or more extended use. -/
def InteractionAnalyzer.classifyInteraction (event : InteractionEvent)
    (context : List InteractionEvent) : InteractionType :=
  if event.type ≠ .unknown then event.type
  else if event.duration < 10000 then .timeCheck
  else if event.duration < 30000 then
    match context.getLast? with
    | some last_event =>
      if event.timestamp - last_event.timestamp < 120000 ∧
         last_event.type = .meaningfulUse then .meaningfulUse
      else if event.category = .clockAlarm then .timeCheck
      else .timeCheck
    | none =>
      if event.category = .clockAlarm then .timeCheck
      else .timeCheck
  else if event.duration < 300000 then .meaningfulUse
  else .extendedUse

/-- The state of a PatternMatcher (pattern_matcher.h lines 25-36): per-day
typical bedtimes and wake times (minutes since midnight), per-day
confidence weights, the smoothed average sleep duration (hours) and the
session counter.  The source also stores schedule_regularity_score_, a
double recomputed with std::sqrt once more than 7 sessions exist
(pattern_matcher.cpp lines 154-176); that field is write-only for every
operation modelled here and, being irrational in general, is omitted. -/
structure PatternMatcher where
  typical_bedtimes : Int → Int
  typical_wake_times : Int → Int
  pattern_confidence : Int → ℚ
  average_sleep_duration : ℚ
  total_sleep_sessions : Nat

/-- PatternMatcher::updatePatterns (pattern_matcher.cpp lines 16-78):
no-op for an invalid session; else exponential moving average with
alpha = 0.1 (direct initialisation on the very first session) of the
bedtime and wake minutes of the day of week of the bedtime, truncated to
int minutes, the same average for the global duration, a 0.05 confidence
nudge capped at 1 for sessions of at least MEDIUM confidence, and the
session counter incremented. -/
def PatternMatcher.updatePatterns (pm : PatternMatcher)
    (session : SleepDetectionResult) : PatternMatcher :=
  if session.isValid then
    match session.bedtime with
    | some bt =>
      let day_of_week := dayOfWeek bt
      let bedtime_minutes := getMinutesSinceMidnight bt
      let tb :=
        if pm.total_sleep_sessions = 0 then bedtime_minutes
        else truncQ ((pm.typical_bedtimes day_of_week : ℚ) * (1 - 1/10) +
                     (bedtime_minutes : ℚ) * (1/10))
      let tw :=
        match session.wake_time with
        | some wt =>
          let wake_minutes := getMinutesSinceMidnight wt
          if pm.total_sleep_sessions = 0 then wake_minutes
          else truncQ ((pm.typical_wake_times day_of_week : ℚ) * (1 - 1/10) +
                       (wake_minutes : ℚ) * (1/10))
        | none => pm.typical_wake_times day_of_week
      let avg :=
        if pm.total_sleep_sessions = 0 then session.duration_hours
        else pm.average_sleep_duration * (1 - 1/10) +
             session.duration_hours * (1/10)
      let pc :=
        if SleepConfidence.medium.toNat ≤ session.confidence.toNat then
          min 1 (pm.pattern_confidence day_of_week + 1/20)
        else pm.pattern_confidence day_of_week
      { typical_bedtimes := Function.update pm.typical_bedtimes day_of_week tb
        typical_wake_times := Function.update pm.typical_wake_times day_of_week tw
        pattern_confidence := Function.update pm.pattern_confidence day_of_week pc
        average_sleep_duration := avg
        total_sleep_sessions := pm.total_sleep_sessions + 1 }
    | none => pm
  else pm

/-! Concrete data used by the closed theorems below. -/

/-- A meaningful interaction at the epoch (a sorted two-event history with
meaningfulEventLater forms an 8-hour candidate sleep window). -/
def meaningfulEventEarly : InteractionEvent := .make 0 60000 .meaningfulUse .unknown

/-- A meaningful interaction 8 hours after meaningfulEventEarly. -/
def meaningfulEventLater : InteractionEvent := .make 28800000 60000 .meaningfulUse .unknown

/-- Detector holding the two meaningful events 8 hours apart, default
preferences, empty cache. -/
def detectorEightHourGap : SleepDetector :=
  ⟨[meaningfulEventEarly, meaningfulEventLater], 0, false, defaultPreferences, none, 0, 2, 0⟩

/-- The result detectSleepPeriod computes for detectorEightHourGap at
09:00: bedtime at the epoch, wake 8 hours later, quality 1, confidence
LOW (score 7/20), pattern score 1/2. -/
def resultEightHour : SleepDetectionResult :=
  ⟨some 0, some 28800000, 8, .low, [], 1, false, 1/2⟩

/-- A meaningful interaction about 17 minutes after the epoch; paired with
meaningfulEventEarly it gives a history whose last activity is recent
enough that detection at one time fails and 60 seconds later succeeds. -/
def meaningfulEventClose : InteractionEvent := .make 1000000 60000 .meaningfulUse .unknown

/-- Detector holding two meaningful events 1000 seconds apart. -/
def detectorShortGap : SleepDetector :=
  ⟨[meaningfulEventEarly, meaningfulEventClose], 0, false, defaultPreferences, none, 0, 2, 0⟩

/-- A pattern-matcher state with uniform defaults and no recorded session. -/
def freshPatternMatcher : PatternMatcher :=
  ⟨fun _ => 1410, fun _ => 450, fun _ => 0, 8, 0⟩

/-! Evaluation of the eight-hour scenario, shared by several witnesses. -/

/-- detectCompute on the eight-hour history yields resultEightHour. -/
theorem detectCompute_eightHour :
    detectCompute defaultPreferences [meaningfulEventEarly, meaningfulEventLater] 32400000
      = resultEightHour := by
  have h1 : findSleepStartTime defaultPreferences
      [meaningfulEventEarly, meaningfulEventLater] 32400000 = some 0 := by decide
  have h2 : findSleepEndTime [meaningfulEventEarly, meaningfulEventLater] 0
      = some 28800000 := by decide
  have h3 : analyzeInterruptions [meaningfulEventEarly, meaningfulEventLater] 0 28800000
      = [] := by decide
  have h4 : ([meaningfulEventEarly, meaningfulEventLater].any (fun e =>
      e.type == .sleepConfirmation &&
      decide ((0:Int) - 1800000 ≤ e.timestamp) &&
      decide (e.timestamp ≤ (0:Int) + 1800000))) = false := by decide
  have h5 : calculateSleepQuality [] (28800000 - 0) = 1 := by
    norm_num [calculateSleepQuality]
  have h6 : calculateDurationHours 0 28800000 = 8 := by
    norm_num [calculateDurationHours]
  have h7 : calculateConfidenceScore defaultPreferences
      ⟨some 0, some 28800000, 8, .low, [], 1, false, 0⟩ = 7/20 := by
    rw [calculateConfidenceScore, if_pos (by norm_num [SleepDetectionResult.isValid])]
    norm_num [defaultPreferences, show isNighttime 0 = true from by decide]
  have h8 : toConfidenceLevel (7/20) = .low := by
    norm_num [toConfidenceLevel, truncQ]
    rfl
  have h9 : evaluatePatternConsistency defaultPreferences 0 28800000 = 1/2 := by
    norm_num [evaluatePatternConsistency, defaultPreferences,
      show dayOfWeek 0 = 4 from by decide,
      show getMinutesSinceMidnight 0 = 0 from by decide,
      UserPreferences.getBedtimeForDay, calculateDurationHours]
  simp only [detectCompute, h1, h2, h3, h4, h5, h6, h7, h8, h9]
  simp only [Bool.false_eq_true, if_false, resultEightHour]

/-- resultEightHour satisfies the validity predicate. -/
theorem resultEightHour_isValid : resultEightHour.isValid := by
  norm_num [SleepDetectionResult.isValid, resultEightHour]

/-- Full evaluation of detectSleepPeriod on the eight-hour scenario:
the valid result is returned and cached with the call time. -/
theorem detect_eightHour_eval :
    detectorEightHourGap.detectSleepPeriod 32400000 =
      (resultEightHour,
       { detectorEightHourGap with
           cached_result := some resultEightHour
           last_cache_update := 32400000
           total_sleep_periods_detected := 1 }) := by
  have hpref : detectorEightHourGap.preferences = defaultPreferences := rfl
  rw [SleepDetector.detectSleepPeriod]
  rw [show detectorEightHourGap.canUseCachedResult 32400000 = false from by decide]
  simp only [Bool.false_eq_true, if_false]
  rw [SleepDetector.detectRaw]
  rw [show detectorEightHourGap.getSortedEvents
      = [meaningfulEventEarly, meaningfulEventLater] from by decide]
  simp only [List.length_cons, List.length_nil]
  norm_num
  rw [hpref, detectCompute_eightHour]
  rw [if_pos resultEightHour_isValid]
  rfl

/-! Shared structural lemmas about detectSleepPeriod. -/

/-- On a cache miss the returned result is the raw computation. -/
theorem detect_miss_fst (s : SleepDetector) (t : Int)
    (hc : s.canUseCachedResult t = false) :
    (s.detectSleepPeriod t).1 = s.detectRaw t := by
  rw [SleepDetector.detectSleepPeriod]
  simp only [hc, Bool.false_eq_true, if_false]
  split <;> rfl

/-- On a cache miss that produces a valid result, the post-state is the
input state with exactly the cache slot, the cache timestamp and the
detection counter updated. -/
theorem detect_miss_valid_state (s : SleepDetector) (t : Int)
    (hc : s.canUseCachedResult t = false)
    (hv : (s.detectSleepPeriod t).1.isValid) :
    (s.detectSleepPeriod t).2 =
      { s with cached_result := some (s.detectSleepPeriod t).1
               last_cache_update := t
               total_sleep_periods_detected := s.total_sleep_periods_detected + 1 } := by
  by_cases hvr : (s.detectRaw t).isValid
  · simp only [SleepDetector.detectSleepPeriod, hc, Bool.false_eq_true, if_false, if_pos hvr]
  · rw [detect_miss_fst s t hc] at hv
    exact absurd hv hvr

/-- Claim C1 (amended): whenever detectSleepPeriod performs a fresh
computation (no usable cache) and the computed result satisfies the
validity predicate, the detector caches that result together with
current_time.  The source never passes the result to the Pattern Matcher:
PatternMatcher::updatePatterns has no caller anywhere in the repository
and SleepDetector owns no PatternMatcher, so the per-day pattern model is
not updated by detection (see the counterexample). -/
theorem detectSleepPeriod_caches_valid_result (s : SleepDetector) (t : Int)
    (hc : s.canUseCachedResult t = false)
    (hv : (s.detectSleepPeriod t).1.isValid) :
    (s.detectSleepPeriod t).2.cached_result = some (s.detectSleepPeriod t).1
    ∧ (s.detectSleepPeriod t).2.last_cache_update = t
    ∧ (s.detectSleepPeriod t).2.recent_events = s.recent_events
    ∧ (s.detectSleepPeriod t).2.preferences = s.preferences := by
  rw [detect_miss_valid_state s t hc hv]
  exact ⟨rfl, rfl, rfl, rfl⟩

/-- Witness for detectSleepPeriod_caches_valid_result at the concrete
eight-hour scenario. -/
theorem detectSleepPeriod_caches_valid_result_witness :
    detectorEightHourGap.canUseCachedResult 32400000 = false
    ∧ (detectorEightHourGap.detectSleepPeriod 32400000).1.isValid
    ∧ (detectorEightHourGap.detectSleepPeriod 32400000).2.cached_result
        = some (detectorEightHourGap.detectSleepPeriod 32400000).1
    ∧ (detectorEightHourGap.detectSleepPeriod 32400000).2.last_cache_update = 32400000 := by
  have hv : (detectorEightHourGap.detectSleepPeriod 32400000).1.isValid := by
    rw [detect_eightHour_eval]
    exact resultEightHour_isValid
  have h := detectSleepPeriod_caches_valid_result detectorEightHourGap 32400000 (by decide) hv
  exact ⟨by decide, hv, h.1, h.2.1⟩

/-- Counterexample for claim C1 as stated: a detection whose result is
valid and cached, yet the entire post-state of the program consists of
the input detector with only the cache fields changed — no pattern-model
state exists in it, and feeding the result to
PatternMatcher::updatePatterns would observably change any pattern
matcher (here the fresh one), so the per-day pattern model is provably
not updated by the detection. -/
theorem detectSleepPeriod_no_pattern_update_cex :
    (detectorEightHourGap.detectSleepPeriod 32400000).1.isValid
    ∧ (detectorEightHourGap.detectSleepPeriod 32400000).2
        = { detectorEightHourGap with
              cached_result := some (detectorEightHourGap.detectSleepPeriod 32400000).1
              last_cache_update := 32400000
              total_sleep_periods_detected := 1 }
    ∧ freshPatternMatcher.updatePatterns
        (detectorEightHourGap.detectSleepPeriod 32400000).1 ≠ freshPatternMatcher := by
  refine ⟨?_, ?_, ?_⟩
  · rw [detect_eightHour_eval]
    exact resultEightHour_isValid
  · rw [detect_eightHour_eval]
  · rw [detect_eightHour_eval]
    intro hEq
    have hts : (freshPatternMatcher.updatePatterns resultEightHour).total_sleep_sessions = 1 := by
      rw [PatternMatcher.updatePatterns, if_pos resultEightHour_isValid]
      rfl
    rw [hEq] at hts
    exact absurd hts (by decide)

/-- Claim C3 (amended): a detectSleepPeriod call that performs a fresh
computation with a valid (hence cached) result is followed, for any
second call less than 5 minutes later with no intervening
addInteractionEvent or updateUserPreferences, by the identical result
(the cached record, bit for bit). -/
theorem detect_cache_window_stable (s : SleepDetector) (t1 t2 : Int)
    (hc : s.canUseCachedResult t1 = false)
    (hv : (s.detectSleepPeriod t1).1.isValid)
    (ht : t2 - t1 < 300000) :
    ((s.detectSleepPeriod t1).2.detectSleepPeriod t2).1 = (s.detectSleepPeriod t1).1 := by
  rw [detect_miss_valid_state s t1 hc hv]
  rw [SleepDetector.detectSleepPeriod]
  have hcu : ({ s with cached_result := some (s.detectSleepPeriod t1).1
                       last_cache_update := t1
                       total_sleep_periods_detected := s.total_sleep_periods_detected + 1 }
      : SleepDetector).canUseCachedResult t2 = true := by
    simp [SleepDetector.canUseCachedResult, CACHE_VALIDITY_MS, ht]
  simp [hcu, Option.getD]

/-- Witness for detect_cache_window_stable: the eight-hour scenario
queried again 60 seconds later returns the same record. -/
theorem detect_cache_window_stable_witness :
    detectorEightHourGap.canUseCachedResult 32400000 = false
    ∧ (detectorEightHourGap.detectSleepPeriod 32400000).1.isValid
    ∧ (32460000 - 32400000 : Int) < 300000
    ∧ ((detectorEightHourGap.detectSleepPeriod 32400000).2.detectSleepPeriod 32460000).1
        = (detectorEightHourGap.detectSleepPeriod 32400000).1 := by
  have hv : (detectorEightHourGap.detectSleepPeriod 32400000).1.isValid := by
    rw [detect_eightHour_eval]
    exact resultEightHour_isValid
  exact ⟨by decide, hv, by decide,
    detect_cache_window_stable detectorEightHourGap 32400000 32460000 (by decide) hv (by decide)⟩

/-- Counterexample for claim C3 as stated: two calls 60 seconds apart on
the same untouched detector state return different results.  The first
call (last activity 14340 s ago, below the 4 h gap) detects nothing and
caches nothing, the second (14400 s, at the threshold) reports a bedtime,
so the 5-minute guarantee does not hold for every detector state. -/
theorem detect_cache_window_cex :
    (detectorShortGap.detectSleepPeriod 15340000).1
      ≠ ((detectorShortGap.detectSleepPeriod 15340000).2.detectSleepPeriod 15400000).1
    ∧ (15400000 - 15340000 : Int) < 300000 := by
  constructor
  · decide
  · decide

/-- Claim C8: an updateUserPreferences call with preferences that fail the
validity predicate leaves the detector state entirely unchanged — the
stored preferences stay in effect and the cached result survives; the
operation is a total function, so no failure reaches the caller. -/
theorem invalid_preferences_ignored (s : SleepDetector) (p : UserPreferences)
    (h : ¬ p.isValid) :
    s.updateUserPreferences p = s
    ∧ (s.updateUserPreferences p).preferences = s.preferences
    ∧ (s.updateUserPreferences p).cached_result = s.cached_result := by
  have h1 : s.updateUserPreferences p = s := by
    rw [SleepDetector.updateUserPreferences, if_neg h]
  exact ⟨h1, by rw [h1], by rw [h1]⟩

/-- A preferences record with target_sleep_hours = 15, outside the 1-12
range (the spec scenario for a rejected update). -/
def invalidPrefsFifteen : UserPreferences :=
  { defaultPreferences with target_sleep_hours := 15 }

/-- A detector state with a live cached result, used to observe that a
rejected preferences update does not invalidate the cache. -/
def detectorWithCache : SleepDetector :=
  ⟨[], 0, false, defaultPreferences, some resultEightHour, 32400000, 2, 1⟩

/-- Witness for invalid_preferences_ignored: the 15-hour update is
rejected and the detector, including its cached result, is untouched. -/
theorem invalid_preferences_ignored_witness :
    ¬ invalidPrefsFifteen.isValid
    ∧ detectorWithCache.updateUserPreferences invalidPrefsFifteen = detectorWithCache
    ∧ (detectorWithCache.updateUserPreferences invalidPrefsFifteen).cached_result
        = some resultEightHour := by
  have hinv : ¬ invalidPrefsFifteen.isValid := by
    norm_num [UserPreferences.isValid, invalidPrefsFifteen, defaultPreferences]
  have h := invalid_preferences_ignored detectorWithCache invalidPrefsFifteen hinv
  exact ⟨hinv, h.1, by rw [h.2.2]; rfl⟩

/-- The brief time checks inserted into the gap scenarios (5 s each). -/
def briefCheck1 : InteractionEvent := .make 3600000 5000 .timeCheck .unknown

/-- Second brief check, at 1.5 h. -/
def briefCheck2 : InteractionEvent := .make 5400000 5000 .timeCheck .unknown

/-- Third brief check, at 2 h. -/
def briefCheck3 : InteractionEvent := .make 7200000 5000 .timeCheck .unknown

/-- Fourth brief check, at 2.5 h. -/
def briefCheck4 : InteractionEvent := .make 9000000 5000 .timeCheck .unknown

/-- Fifth brief check, at 3 h. -/
def briefCheck5 : InteractionEvent := .make 10800000 5000 .timeCheck .unknown

/-- A meaningful interaction exactly 4 hours (the default
minimum_interaction_gap) after the epoch. -/
def meaningfulEventFourHours : InteractionEvent := .make 14400000 60000 .meaningfulUse .unknown

/-- Claim C7: gap qualification uses an inclusive duration comparison and
a strict brief-interaction bound: a gap of exactly the minimum duration
qualifies, 4 brief interactions qualify, 5 are excluded; shown both for
arbitrary gaps and on concrete histories whose outermost events are
exactly minimum_interaction_gap apart with 4 respectively 5 time checks
inside. -/
theorem gap_boundary_inclusive_and_brief_bound (g : TimeGap) (m : Int) :
    (g.duration = m → g.brief_interaction_count < 5 → g.isLikelySleep m = true)
    ∧ (g.brief_interaction_count = 5 → g.isLikelySleep m = false)
    ∧ (g.duration = m → g.brief_interaction_count = 4 → g.isLikelySleep m = true)
    ∧ detectInteractionGaps [meaningfulEventEarly, briefCheck1, briefCheck2, briefCheck3,
        briefCheck4, meaningfulEventFourHours] 14400000
        = [⟨0, 14400000, 14400000, true, 4⟩]
    ∧ (⟨0, 14400000, 14400000, true, 4⟩ : TimeGap).isLikelySleep 14400000 = true
    ∧ detectInteractionGaps [meaningfulEventEarly, briefCheck1, briefCheck2, briefCheck3,
        briefCheck4, briefCheck5, meaningfulEventFourHours] 14400000
        = [⟨0, 14400000, 14400000, true, 5⟩]
    ∧ (⟨0, 14400000, 14400000, true, 5⟩ : TimeGap).isLikelySleep 14400000 = false := by
  refine ⟨?_, ?_, ?_, by decide, by decide, by decide, by decide⟩
  · intro hd hcnt
    simp only [TimeGap.isLikelySleep, Bool.and_eq_true, decide_eq_true_eq]
    omega
  · intro hcnt
    have : ¬ (g.brief_interaction_count < 5) := by omega
    simp [TimeGap.isLikelySleep, this]
  · intro hd hcnt
    simp only [TimeGap.isLikelySleep, Bool.and_eq_true, decide_eq_true_eq]
    omega

/-- Witness for gap_boundary_inclusive_and_brief_bound at a concrete gap
of exactly the default minimum duration with 4 brief interactions. -/
theorem gap_boundary_inclusive_witness :
    (⟨0, 14400000, 14400000, true, 4⟩ : TimeGap).duration = 14400000
    ∧ (⟨0, 14400000, 14400000, true, 4⟩ : TimeGap).brief_interaction_count = 4
    ∧ (⟨0, 14400000, 14400000, true, 4⟩ : TimeGap).isLikelySleep 14400000 = true := by
  exact ⟨rfl, rfl,
    (gap_boundary_inclusive_and_brief_bound ⟨0, 14400000, 14400000, true, 4⟩ 14400000).2.2.1
      rfl rfl⟩

/-- A TimeCheck-typed event of 35 s, longer than the 30 s meaningful-use
duration threshold. -/
def longTimeCheck : InteractionEvent := .make 14400000 35000 .timeCheck .unknown

/-- A TimeCheck-typed event of 5 s at the same instant, for contrast. -/
def shortTimeCheck : InteractionEvent := .make 14400000 5000 .timeCheck .unknown

/-- Claim C10: the interface predicates are not mutually exclusive — an
event explicitly typed TimeCheck whose duration reaches 30 s satisfies
isMeaningfulUse (and still isTimeCheck), and gap detection therefore
treats it as a meaningful-use gap boundary (it ends one gap and starts
the next, and is counted inside none), whereas the same event with a
brief duration is counted as a brief interruption inside a single gap. -/
theorem typed_timecheck_is_meaningful :
    (∀ e : InteractionEvent, e.type = .timeCheck → 30000 ≤ e.duration →
       e.isMeaningfulUse = true ∧ e.isTimeCheck = true)
    ∧ detectInteractionGaps [meaningfulEventEarly, longTimeCheck, meaningfulEventLater] 14400000
        = [⟨0, 14400000, 14400000, false, 0⟩, ⟨14400000, 28800000, 14400000, false, 0⟩]
    ∧ detectInteractionGaps [meaningfulEventEarly, shortTimeCheck, meaningfulEventLater] 14400000
        = [⟨0, 28800000, 28800000, true, 1⟩] := by
  refine ⟨?_, by decide, by decide⟩
  intro e htype hdur
  constructor
  · simp [InteractionEvent.isMeaningfulUse, hdur]
  · simp [InteractionEvent.isTimeCheck, htype]

/-- Witness for typed_timecheck_is_meaningful at the concrete 35-second
TimeCheck-typed event. -/
theorem typed_timecheck_is_meaningful_witness :
    longTimeCheck.type = .timeCheck
    ∧ 30000 ≤ longTimeCheck.duration
    ∧ longTimeCheck.isMeaningfulUse = true
    ∧ longTimeCheck.isTimeCheck = true := by
  have h := typed_timecheck_is_meaningful.1 longTimeCheck rfl (by decide)
  exact ⟨rfl, by decide, h.1, h.2⟩

/-- Claim C2 (amended): for an event of type Unknown the classifier of
interaction_analyzer.cpp applies these duration thresholds: under 10 s a
TimeCheck unconditionally; 10 s to 30 s a TimeCheck unless the last
context event has type MeaningfulUse and lies less than 2 minutes
earlier, in which case MeaningfulUse; 30 s to 5 min MeaningfulUse; 5 min
or more ExtendedUse.  (The spec states 15 s for the first threshold; the
compiled analyzer uses 10 s — see the counterexample.  A divergent draft
copy of the same function inside sleep_detector.cpp does use 15 s.) -/
theorem classifyInteraction_duration_thresholds (e : InteractionEvent)
    (ctx : List InteractionEvent) (h : e.type = .unknown) :
    (e.duration < 10000 →
      InteractionAnalyzer.classifyInteraction e ctx = .timeCheck)
    ∧ (∀ last_event, 10000 ≤ e.duration → e.duration < 30000 →
        ctx.getLast? = some last_event → last_event.type = .meaningfulUse →
        e.timestamp - last_event.timestamp < 120000 →
        InteractionAnalyzer.classifyInteraction e ctx = .meaningfulUse)
    ∧ (10000 ≤ e.duration → e.duration < 30000 →
        (∀ last_event, ctx.getLast? = some last_event →
          ¬(e.timestamp - last_event.timestamp < 120000 ∧
            last_event.type = .meaningfulUse)) →
        InteractionAnalyzer.classifyInteraction e ctx = .timeCheck)
    ∧ (30000 ≤ e.duration → e.duration < 300000 →
        InteractionAnalyzer.classifyInteraction e ctx = .meaningfulUse)
    ∧ (300000 ≤ e.duration →
        InteractionAnalyzer.classifyInteraction e ctx = .extendedUse) := by
  have hne : ¬ (e.type ≠ InteractionType.unknown) := by simp [h]
  refine ⟨?_, ?_, ?_, ?_, ?_⟩
  · intro hd
    rw [InteractionAnalyzer.classifyInteraction, if_neg hne, if_pos hd]
  · intro last_event h10 h30 hlast htype hgap
    rw [InteractionAnalyzer.classifyInteraction, if_neg hne,
      if_neg (by omega), if_pos h30, hlast]
    simp [hgap, htype]
  · intro h10 h30 hnc
    rw [InteractionAnalyzer.classifyInteraction, if_neg hne,
      if_neg (by omega), if_pos h30]
    cases hlast : ctx.getLast? with
    | none => simp
    | some last_event =>
      have hn := hnc last_event hlast
      simp [hn]
  · intro h30 h300
    rw [InteractionAnalyzer.classifyInteraction, if_neg hne,
      if_neg (by omega), if_neg (by omega), if_pos h300]
  · intro h300
    rw [InteractionAnalyzer.classifyInteraction, if_neg hne,
      if_neg (by omega), if_neg (by omega), if_neg (by omega)]

/-- An unclassified 12-second interaction 60 s after a meaningful one. -/
def twelveSecondEvent : InteractionEvent := .make 120000 12000 .unknown .unknown

/-- Context whose last event is MeaningfulUse, one minute before
twelveSecondEvent. -/
def recentMeaningfulContext : List InteractionEvent :=
  [.make 60000 60000 .meaningfulUse .unknown]

/-- Witness for classifyInteraction_duration_thresholds: the 12-second
event after a recent meaningful one classifies as a continuation. -/
theorem classifyInteraction_duration_thresholds_witness :
    twelveSecondEvent.type = .unknown
    ∧ (10000 ≤ twelveSecondEvent.duration ∧ twelveSecondEvent.duration < 30000)
    ∧ InteractionAnalyzer.classifyInteraction twelveSecondEvent recentMeaningfulContext
        = .meaningfulUse := by
  refine ⟨rfl, by decide, ?_⟩
  exact (classifyInteraction_duration_thresholds twelveSecondEvent
      recentMeaningfulContext rfl).2.1
    (.make 60000 60000 .meaningfulUse .unknown)
    (by decide) (by decide) rfl rfl (by decide)

/-- Counterexample for claim C2 as stated: the claim says a duration
under 15 s yields TimeCheck unconditionally, but the analyzer classifies
this 12-second event as MeaningfulUse because its continuation rule
already applies from 10 s up. -/
theorem classifyInteraction_fifteen_second_cex :
    twelveSecondEvent.duration < 15000
    ∧ twelveSecondEvent.type = .unknown
    ∧ InteractionAnalyzer.classifyInteraction twelveSecondEvent recentMeaningfulContext
        ≠ .timeCheck
    ∧ InteractionAnalyzer.classifyInteraction twelveSecondEvent recentMeaningfulContext
        = .meaningfulUse := by
  exact ⟨by decide, rfl, by decide, by decide⟩

/-- The interruption fold of calculateSleepQuality subtracts one tenth of
the summed impact scores. -/
theorem foldl_impact_sub (l : List SleepInterruption) (a : ℚ) :
    l.foldl (fun q i => q - i.impact_score * (1/10)) a
      = a - (l.map SleepInterruption.impact_score).sum * (1/10) := by
  induction l generalizing a with
  | nil => simp
  | cons x xs ih =>
    simp only [List.foldl_cons, List.map_cons, List.sum_cons, ih]
    ring

/-- Claim C5: for a positive sleep duration the quality score is exactly
1 minus 0.1 per unit of summed interruption impact, minus an extra 0.05
per interruption beyond the third when there are more than 3, clamped to
the interval [0, 1]; in particular it is never negative, however many
interruptions there are. -/
theorem sleep_quality_formula (interruptions : List SleepInterruption)
    (dur : Int) (h : 0 < dur) :
    calculateSleepQuality interruptions dur
      = max 0 (min 1 (1 - (interruptions.map SleepInterruption.impact_score).sum * (1/10)
          - (if 3 < interruptions.length then
              ((interruptions.length - 3 : Nat) : ℚ) * (1/20) else 0)))
    ∧ 0 ≤ calculateSleepQuality interruptions dur
    ∧ calculateSleepQuality interruptions dur ≤ 1 := by
  have hne : ¬ (dur ≤ 0) := by omega
  refine ⟨?_, ?_, ?_⟩
  · rw [calculateSleepQuality, if_neg hne]
    simp only [foldl_impact_sub]
    split_ifs with h3
    · ring_nf
    · ring_nf
  · rw [calculateSleepQuality, if_neg hne]
    exact le_max_left 0 _
  · rw [calculateSleepQuality, if_neg hne]
    exact max_le (by norm_num) (min_le_left 1 _)

/-- A 5-second time-check interruption (impact 0.1). -/
def briefInterruption : SleepInterruption :=
  SleepInterruption.make 0 5000 .timeCheck .unknown

/-- Witness for sleep_quality_formula: 50 identical brief interruptions
in an 8-hour sleep drive the raw score to -1.85 and the clamp returns
exactly 0, not a negative value. -/
theorem sleep_quality_formula_witness :
    (0 : Int) < 28800000
    ∧ 0 ≤ calculateSleepQuality (List.replicate 50 briefInterruption) 28800000
    ∧ calculateSleepQuality (List.replicate 50 briefInterruption) 28800000 ≤ 1
    ∧ calculateSleepQuality (List.replicate 50 briefInterruption) 28800000 = 0 := by
  have h := sleep_quality_formula (List.replicate 50 briefInterruption) 28800000 (by decide)
  refine ⟨by decide, h.2.1, h.2.2, ?_⟩
  rw [h.1]
  have hi : briefInterruption.impact_score = 1/10 := by
    norm_num [briefInterruption, SleepInterruption.make]
  simp only [List.map_replicate, hi, List.sum_replicate, List.length_replicate]
  norm_num

/-- Claim C6 (amended): the impact_score assigned by the
SleepInterruption constructor always lies in [0, 1], and it is monotone
non-decreasing in duration within each regime — constant 0.1 below the
30 s brief-check threshold and non-decreasing (linear, capped at 1) from
30 s on.  Monotonicity fails across the threshold itself, where the
score drops from 0.1 to 0.05 (see the counterexample). -/
theorem impact_score_range_and_regime_mono (ts d1 d2 : Int)
    (c : InteractionType) (cat : AppCategory) :
    (0 ≤ (SleepInterruption.make ts d1 c cat).impact_score
      ∧ (SleepInterruption.make ts d1 c cat).impact_score ≤ 1)
    ∧ (d1 ≤ d2 → d2 < 30000 →
        (SleepInterruption.make ts d1 c cat).impact_score
          ≤ (SleepInterruption.make ts d2 c cat).impact_score)
    ∧ (d1 ≤ d2 → 30000 ≤ d1 →
        (SleepInterruption.make ts d1 c cat).impact_score
          ≤ (SleepInterruption.make ts d2 c cat).impact_score) := by
  refine ⟨?_, ?_, ?_⟩
  · rw [SleepInterruption.make]
    split_ifs with hb
    · norm_num
    · constructor
      · apply le_min (by norm_num)
        have : (30000 : ℚ) ≤ (d1 : ℚ) := by exact_mod_cast (by omega : (30000:Int) ≤ d1)
        positivity
      · exact min_le_left 1 _
  · intro h12 h2
    rw [SleepInterruption.make, SleepInterruption.make,
      if_pos (by omega : d1 < 30000), if_pos h2]
  · intro h12 h1
    rw [SleepInterruption.make, SleepInterruption.make,
      if_neg (by omega : ¬ d1 < 30000), if_neg (by omega : ¬ d2 < 30000)]
    simp only []
    apply min_le_min le_rfl
    apply div_le_div_of_nonneg_right ?_ (by norm_num)
    exact_mod_cast h12

/-- Witness for impact_score_range_and_regime_mono at 29999 ms. -/
theorem impact_score_range_witness :
    0 ≤ (SleepInterruption.make 0 29999 .timeCheck .unknown).impact_score
    ∧ (SleepInterruption.make 0 29999 .timeCheck .unknown).impact_score ≤ 1
    ∧ (29000 : Int) ≤ 29999
    ∧ (29999 : Int) < 30000
    ∧ (SleepInterruption.make 0 29000 .timeCheck .unknown).impact_score
        ≤ (SleepInterruption.make 0 29999 .timeCheck .unknown).impact_score := by
  have h := impact_score_range_and_regime_mono 0 29999 29999 .timeCheck .unknown
  have h2 := impact_score_range_and_regime_mono 0 29000 29999 .timeCheck .unknown
  exact ⟨h.1.1, h.1.2, by decide, by decide, h2.2.1 (by decide) (by decide)⟩

/-- Counterexample for claim C6 as stated: two interruptions identical
except for duration where the longer one (30000 ms, impact 0.05) scores
strictly below the shorter one (29999 ms, impact 0.1), so impact_score is
not monotone non-decreasing in duration. -/
theorem impact_score_monotonicity_cex :
    (SleepInterruption.make 0 29999 .timeCheck .unknown).duration
      < (SleepInterruption.make 0 30000 .timeCheck .unknown).duration
    ∧ (SleepInterruption.make 0 30000 .timeCheck .unknown).impact_score
      < (SleepInterruption.make 0 29999 .timeCheck .unknown).impact_score := by
  constructor
  · norm_num [SleepInterruption.make]
  · have h1 : (SleepInterruption.make 0 29999 .timeCheck .unknown).impact_score = 1/10 := by
      norm_num [SleepInterruption.make]
    have h2 : (SleepInterruption.make 0 30000 .timeCheck .unknown).impact_score = 1/20 := by
      norm_num [SleepInterruption.make]
    rw [h1, h2]
    norm_num

/-- Claim C9: across every updatePatterns call the per-day confidence
weight stays at most 1 — a session of at least MEDIUM confidence nudges
the weight of the bedtime day by 0.05 capped at 1, while invalid
sessions and sessions below MEDIUM leave every weight unchanged. -/
theorem pattern_confidence_capped (pm : PatternMatcher)
    (hpc : ∀ d, pm.pattern_confidence d ≤ 1) (s : SleepDetectionResult) :
    (∀ d, (pm.updatePatterns s).pattern_confidence d ≤ 1)
    ∧ (¬ s.isValid → (pm.updatePatterns s).pattern_confidence = pm.pattern_confidence)
    ∧ (∀ bt, s.isValid → s.bedtime = some bt →
        SleepConfidence.medium.toNat ≤ s.confidence.toNat →
        (pm.updatePatterns s).pattern_confidence
          = Function.update pm.pattern_confidence (dayOfWeek bt)
              (min 1 (pm.pattern_confidence (dayOfWeek bt) + 1/20)))
    ∧ (∀ bt, s.isValid → s.bedtime = some bt →
        s.confidence.toNat < SleepConfidence.medium.toNat →
        (pm.updatePatterns s).pattern_confidence = pm.pattern_confidence) := by
  by_cases hv : s.isValid
  · cases hbt : s.bedtime with
    | none =>
      exact absurd hv.1 (by simp [hbt])
    | some bt =>
      have hupc : (pm.updatePatterns s).pattern_confidence
          = Function.update pm.pattern_confidence (dayOfWeek bt)
              (if SleepConfidence.medium.toNat ≤ s.confidence.toNat then
                min 1 (pm.pattern_confidence (dayOfWeek bt) + 1/20)
              else pm.pattern_confidence (dayOfWeek bt)) := by
        rw [PatternMatcher.updatePatterns, if_pos hv, hbt]
      refine ⟨?_, fun hnv => absurd hv hnv, ?_, ?_⟩
      · intro d
        rw [hupc, Function.update_apply]
        split_ifs with h1 h2
        · exact min_le_left _ _
        · exact hpc _
        · exact hpc d
      · intro bt2 _ hbt2 hconf
        have hbb : bt = bt2 := Option.some.inj hbt2
        subst hbb
        rw [hupc, if_pos hconf]
      · intro bt2 _ hbt2 hconf
        have hbb : bt = bt2 := Option.some.inj hbt2
        subst hbb
        rw [hupc, if_neg (by omega)]
        exact Function.update_eq_self _ _
  · have hup : pm.updatePatterns s = pm := by
      rw [PatternMatcher.updatePatterns, if_neg hv]
    exact ⟨fun d => by rw [hup]; exact hpc d, fun _ => by rw [hup],
      fun bt hv2 _ _ => absurd hv2 hv, fun bt hv2 _ _ => absurd hv2 hv⟩

/-- Witness for pattern_confidence_capped: the fresh pattern matcher fed
the LOW-confidence eight-hour result keeps all weights at most 1 and, the
confidence being below MEDIUM, keeps them unchanged. -/
theorem pattern_confidence_capped_witness :
    (freshPatternMatcher.updatePatterns resultEightHour).pattern_confidence 4 ≤ 1
    ∧ (freshPatternMatcher.updatePatterns resultEightHour).pattern_confidence
        = freshPatternMatcher.pattern_confidence := by
  have h := pattern_confidence_capped freshPatternMatcher
    (fun d => by norm_num [freshPatternMatcher]) resultEightHour
  exact ⟨h.1 4, h.2.2.2 0 resultEightHour_isValid rfl (by decide)⟩

/-- The level map applied to a non-negative score is the floor of five
times the score, capped at 4. -/
theorem toConfidenceLevel_toNat_eq (x : ℚ) (hx : 0 ≤ x) :
    (toConfidenceLevel x).toNat = min 4 (⌊x * 5⌋).toNat
    ∧ (toConfidenceLevel x).toNat ≤ 4 := by
  have hx5 : 0 ≤ x * 5 := by positivity
  have hfl : 0 ≤ ⌊x * 5⌋ := Int.floor_nonneg.mpr hx5
  rw [toConfidenceLevel, truncQ, if_neg (not_lt.mpr hx5)]
  have hmin : (min (4:Int) ⌊x * 5⌋).toNat = min 4 (⌊x * 5⌋).toNat := by omega
  rw [hmin]
  have hk : min 4 (⌊x * 5⌋).toNat ≤ 4 := by omega
  have hfn : ∀ k : Nat, k ≤ 4 → (SleepConfidence.fromNat k).toNat = k := by
    intro k hk4
    interval_cases k <;> rfl
  rw [hfn _ hk]
  exact ⟨rfl, hk⟩

/-- Claim C4: for a valid session (with its score fields in range, as
every detected session has) the confidence fraction equals the weighted
sum — 0.5 for manual confirmation, duration reasonableness times 0.2,
pattern score times 0.15, quality times 0.1, 0.05 for a bedtime in the
wrapping 22:00-06:00 window — clamped to [0, 1], and the ordinal level
assigned at the detectSleepPeriod call site is the floor of five times
that fraction, capped at the top level VERY_HIGH. -/
theorem confidence_score_weighted_sum (prefs : UserPreferences)
    (session : SleepDetectionResult) (hv : session.isValid)
    (hq : 0 ≤ session.quality_score)
    (hp : 0 ≤ session.pattern_match_score) :
    calculateConfidenceScore prefs session
      = min 1 ((if session.is_manually_confirmed then (1:ℚ)/2 else 0)
          + max 0 (1 - |session.duration_hours - prefs.target_sleep_hours|
              / prefs.target_sleep_hours) * (2/10)
          + session.pattern_match_score * (15/100)
          + session.quality_score * (1/10)
          + (match session.bedtime with
             | some bt => if isNighttime bt then (1:ℚ)/20 else 0
             | none => 0))
    ∧ 0 ≤ calculateConfidenceScore prefs session
    ∧ calculateConfidenceScore prefs session ≤ 1
    ∧ (toConfidenceLevel (calculateConfidenceScore prefs session)).toNat
        = min 4 (⌊calculateConfidenceScore prefs session * 5⌋).toNat
    ∧ (toConfidenceLevel (calculateConfidenceScore prefs session)).toNat
        ≤ SleepConfidence.veryHigh.toNat := by
  obtain ⟨bt, hbt⟩ := Option.isSome_iff_exists.mp hv.1
  have heq : calculateConfidenceScore prefs session
      = min 1 ((if session.is_manually_confirmed then (1:ℚ)/2 else 0)
          + max 0 (1 - |session.duration_hours - prefs.target_sleep_hours|
              / prefs.target_sleep_hours) * (2/10)
          + session.pattern_match_score * (15/100)
          + session.quality_score * (1/10)
          + (match session.bedtime with
             | some bt2 => if isNighttime bt2 then (1:ℚ)/20 else 0
             | none => 0)) := by
    simp only [calculateConfidenceScore, if_pos hv, hbt]
    split_ifs <;> congr 1 <;> ring
  have h1 : 0 ≤ (if session.is_manually_confirmed then (1:ℚ)/2 else 0) := by
    split <;> norm_num
  have h2 : 0 ≤ max 0 (1 - |session.duration_hours - prefs.target_sleep_hours|
      / prefs.target_sleep_hours) * (2/10) :=
    mul_nonneg (le_max_left _ _) (by norm_num)
  have h3 : 0 ≤ session.pattern_match_score * (15/100) := mul_nonneg hp (by norm_num)
  have h4 : 0 ≤ session.quality_score * (1/10) := mul_nonneg hq (by norm_num)
  have h5 : 0 ≤ (match session.bedtime with
      | some bt2 => if isNighttime bt2 then (1:ℚ)/20 else 0
      | none => 0) := by
    simp only [hbt]
    split <;> norm_num
  have hnn : 0 ≤ calculateConfidenceScore prefs session := by
    rw [heq]
    exact le_min (by norm_num) (by linarith)
  have hle : calculateConfidenceScore prefs session ≤ 1 := by
    rw [heq]
    exact min_le_left _ _
  have hlev := toConfidenceLevel_toNat_eq (calculateConfidenceScore prefs session) hnn
  exact ⟨heq, hnn, hle, hlev.1, hlev.2⟩

/-- Witness for confidence_score_weighted_sum at the eight-hour result
under default preferences (fraction 7/20, level LOW). -/
theorem confidence_score_weighted_sum_witness :
    resultEightHour.isValid
    ∧ 0 ≤ resultEightHour.quality_score
    ∧ 0 ≤ resultEightHour.pattern_match_score
    ∧ 0 ≤ calculateConfidenceScore defaultPreferences resultEightHour
    ∧ calculateConfidenceScore defaultPreferences resultEightHour ≤ 1
    ∧ (toConfidenceLevel (calculateConfidenceScore defaultPreferences resultEightHour)).toNat
        ≤ SleepConfidence.veryHigh.toNat := by
  have h := confidence_score_weighted_sum defaultPreferences resultEightHour
    resultEightHour_isValid (by norm_num [resultEightHour])
    (by norm_num [resultEightHour])
  exact ⟨resultEightHour_isValid,
    by norm_num [resultEightHour], by norm_num [resultEightHour],
    h.2.1, h.2.2.1, h.2.2.2.2⟩
